import Mathlib

/-!
Verification of harbor-container-webhook: the process bootstrap in `main.go`
and the rewrite core it wires up.

The first part is a shallow embedding of `main` and `mustParseDuration` from
`main.go`.

The process interacts with its surroundings only through calls into
libraries (flag parsing, the environment, `time.ParseDuration`,
controller-runtime, go-cleanhttp) and into the `internal/mutate` package.
What those calls return is collected in an `Env`; what `main` does with the
answers is recorded as a trace of `Event`s together with the way the process
ends (`os.Exit code`, or a normal return). Which of the recorded log calls
are written depends on whether `ctrl.SetLogger` has run, see `written`.
`flag.Parse()` itself ends the process with status 2 on a malformed command
line; the embedding starts once it has returned.

The second part covers the package `internal/mutate`: the cache, the image
rewrite and `Handle`, written down from the specification of the webhook.
-/

namespace HarborWebhook

/-! ## Values handled by `main` -/

/-- Go's `time.Duration`: a signed count of nanoseconds. -/
abbrev Duration := Int

/-- The constant `time.Minute`. -/
def Minute : Duration := 60 * 1000000000

/-- The variables bound by the `flag.*Var` calls of `main`, with the defaults
given there; a value of this type is what `flag.Parse()` leaves behind. -/
structure Flags where
  metricsAddr : String := ":8080"
  enableLeaderElection : Bool := false
  harborAddr : String := ":8080"
  certDir : String := ""
  resyncDur : String := "1m"
  timeoutDur : String := "1m"
  skipVerify : Bool := false
  deriving DecidableEq, Repr

/-- The package-level `scheme`, seen as the list of API groups added to it. -/
structure Scheme where
  groups : List String
  deriving DecidableEq, Repr

/-- The package variable `scheme` after `init()` has run: the three
`AddToScheme` calls, whose errors `init` discards. -/
def scheme : Scheme :=
  { groups := ["clientgoscheme", "admission/v1", "admission/v1beta1"] }

/-- The part of `tls.Config` that `main` sets. -/
structure TLSConfig where
  insecureSkipVerify : Bool
  deriving DecidableEq, Repr

/-- An `*http.Transport`. `ptr` is the identity of the allocation: two
transports built by two calls of `cleanhttp.DefaultTransport()` are different
objects even though their fields agree. -/
structure Transport where
  ptr : Nat
  disableKeepAlives : Bool
  maxIdleConnsPerHost : Int
  tlsClientConfig : Option TLSConfig
  deriving DecidableEq, Repr

/-- An `*http.Client`: its transport and its overall request timeout. -/
structure HttpClient where
  transport : Transport
  timeout : Duration
  deriving DecidableEq, Repr

/-- The `*rest.Config` returned by `ctrl.GetConfigOrDie()`. -/
structure RestConfig where
  host : String
  deriving DecidableEq, Repr

/-- The `ctrl.Options` literal built in `main`. -/
structure Options where
  scheme : Scheme
  metricsBindAddress : String
  port : Nat
  leaderElection : Bool
  leaderElectionID : String
  certDir : String
  deriving DecidableEq, Repr

/-- A controller manager, identified by the configuration it was made from. -/
structure Manager where
  config : RestConfig
  options : Options
  deriving DecidableEq, Repr

/-- The value of `mgr.GetClient()`. -/
structure K8sClient where
  owner : Manager
  deriving DecidableEq, Repr

/-- An `*admission.Decoder`, identified by the scheme it decodes with. -/
structure Decoder where
  scheme : Scheme
  deriving DecidableEq, Repr

/-- The value returned by `mutate.NewProjectsCache`. The type is declared in
`internal/mutate`; here a cache is identified by the five arguments it was
constructed from. -/
structure ProjectsCache where
  client : HttpClient
  addr : String
  user : String
  pass : String
  resync : Duration
  deriving DecidableEq, Repr

/-- The struct literal `mutate.PodContainerProxier{...}` of `main`; `decoder`
is `none` for a nil pointer. -/
structure PodContainerProxier where
  client : K8sClient
  cache : ProjectsCache
  decoder : Option Decoder
  harborEndpoint : String
  deriving DecidableEq, Repr

/-- Modelled from the spec: `ProxyProject` (section 3), one upstream registry
mirrored by the proxy service. -/
structure ProxyProject where
  registryEndpoint : String
  projectPath : String
  deriving DecidableEq, Repr

/-- Modelled from the spec: `CacheSnapshot` (section 3), the set of proxy
projects valid at one point in time. -/
abbrev CacheSnapshot := List ProxyProject

/-! ## The surroundings of the process -/

/-- Everything `main` obtains from outside itself.
* `flags`: the flag variables after `flag.Parse()`;
* `getenv`: `os.Getenv` (the empty string for an unset variable);
* `parseDuration`: `time.ParseDuration`;
* `getConfig`: controller-runtime's `config.GetConfig()`;
* `newManager`: `ctrl.NewManager`;
* `newDecoder`: `admission.NewDecoder`, a pointer (possibly nil) and an error;
* `start`: `mgr.Start`, `none` for a nil error;
* `list`: what `List()` answers when the warm-up goroutine calls it. -/
structure Env where
  flags : Flags
  getenv : String → String
  parseDuration : String → Except String Duration
  getConfig : Except String RestConfig
  newManager : RestConfig → Options → Except String Manager
  newDecoder : Scheme → Option Decoder × Option String
  start : Manager → Option String
  list : ProjectsCache → CacheSnapshot × Option String

/-! ## Traces -/

/-- What a goroutine did before it finished: the calls it made and whether it
ended the process. -/
structure Goroutine where
  listCalls : List ProjectsCache
  exit : Option Nat
  deriving DecidableEq, Repr

/-- The observable steps of `main`, in program order. `logError` and
`logInfo` record the calls of `Error` and `Info` on a logger derived from
`ctrl.Log`; whether such a call writes anything is the matter of `written`. -/
inductive Event where
  | logError (err msg : String)
  | logInfo (msg : String)
  | setLogger
  | getConfig
  | newManager (cfg : RestConfig) (opts : Options)
  | defaultClient (ptr : Nat)
  | defaultTransport (ptr : Nat)
  | setTransport (t : Transport)
  | setTimeout (d : Duration)
  | newProjectsCache (client : HttpClient) (addr user pass : String) (resync : Duration)
  | go (g : Goroutine)
  | newDecoder (s : Scheme)
  | register (path : String) (handler : PodContainerProxier)
  | start (mgr : Manager)
  deriving DecidableEq, Repr

/-- A run of sequential code: the events so far and either the value computed
or the status passed to `os.Exit`. -/
structure Proc (α : Type) where
  trace : List Event
  result : Except Nat α

/-- A step that does nothing and yields `a`. -/
def Proc.ret {α : Type} (a : α) : Proc α := ⟨[], .ok a⟩

/-- Sequencing: once `os.Exit` has been called nothing after it runs. -/
def Proc.andThen {α β : Type} (m : Proc α) (f : α → Proc β) : Proc β :=
  match m.result with
  | .error code => ⟨m.trace, .error code⟩
  | .ok a => ⟨m.trace ++ (f a).trace, (f a).result⟩

instance : Monad Proc where
  pure := Proc.ret
  bind := Proc.andThen

/-- Record one event. -/
def emit (e : Event) : Proc Unit := ⟨[e], .ok ()⟩

/-- The call `os.Exit(code)`. -/
def osExit {α : Type} (code : Nat) : Proc α := ⟨[], .error code⟩

/-! ## Library functions called by `main` -/

/-- go-cleanhttp's `DefaultTransport()`: a fresh transport with keep-alives
disabled and no `TLSClientConfig`. -/
def cleanhttp.DefaultTransport (ptr : Nat) : Transport :=
  { ptr := ptr, disableKeepAlives := true, maxIdleConnsPerHost := -1, tlsClientConfig := none }

/-- go-cleanhttp's `DefaultClient()`: `&http.Client{Transport: DefaultTransport()}`,
the zero timeout meaning none. -/
def cleanhttp.DefaultClient (ptr : Nat) : HttpClient :=
  { transport := cleanhttp.DefaultTransport ptr, timeout := 0 }

/-- controller-runtime's `GetConfigOrDie()`: when `GetConfig()` fails it logs
"unable to get kubeconfig" and calls `os.Exit(1)`. -/
def GetConfigOrDie (env : Env) : Proc RestConfig := do
  emit .getConfig
  match env.getConfig with
  | .error err => do
    emit (.logError err "unable to get kubeconfig")
    osExit 1
  | .ok cfg => pure cfg

/-- net/http's `(*Client).deadline()`: the time one request through the
client may take, `none` when `Timeout` is zero or negative, in which case the
client sets no deadline. -/
def HttpClient.deadline (c : HttpClient) : Option Duration :=
  if c.timeout > 0 then some c.timeout else none

/-- controller-runtime's delegating logger: `ctrl.Log`, and every logger
derived from it such as `setupLog`, hands what it is given to a null logger
until `ctrl.SetLogger` has been called. `loggerSet` tells whether that call
has happened; the result lists the log calls that reach the configured
logger. -/
def writtenFrom : Bool → List Event → List Event
  | _, [] => []
  | _, .setLogger :: es => writtenFrom true es
  | loggerSet, .logError err msg :: es =>
    if loggerSet then .logError err msg :: writtenFrom loggerSet es
    else writtenFrom loggerSet es
  | loggerSet, .logInfo msg :: es =>
    if loggerSet then .logInfo msg :: writtenFrom loggerSet es
    else writtenFrom loggerSet es
  | loggerSet, _ :: es => writtenFrom loggerSet es

/-- The log calls of a run that are written, the process starting with no
logger set. -/
def written (trace : List Event) : List Event :=
  writtenFrom false trace

/-! ## `main.go` -/

/-- The function `mustParseDuration` of `main.go`. -/
def mustParseDuration (env : Env) (s : String) : Proc Duration :=
  match env.parseDuration s with
  | .error err => do
    emit (.logError err ("invalid duration: " ++ s))
    osExit 1
  | .ok dur => pure dur

/-- The `ctrl.Options` literal of `main`. -/
def managerOptions (f : Flags) : Options :=
  { scheme := scheme
    metricsBindAddress := f.metricsAddr
    port := 9443
    leaderElection := f.enableLeaderElection
    leaderElectionID := "harbor-container-webhook"
    certDir := f.certDir }

/-- Lines 79 to 85 of `main`, the HTTP client it builds:
`cleanhttp.DefaultClient()`, its transport replaced when `skipVerify` is set,
then `client.Timeout = timeoutDuration`. The transport made inside
`DefaultClient()` is allocation 0, the replacement transport allocation 1. -/
def buildClient (skipVerify : Bool) (timeoutDuration : Duration) : Proc HttpClient := do
  emit (.defaultClient 0)
  let client := cleanhttp.DefaultClient 0
  let client ←
    if skipVerify then do
      emit (.defaultTransport 1)
      let transport := cleanhttp.DefaultTransport 1
      let transport := { transport with tlsClientConfig := some { insecureSkipVerify := true } }
      emit (.setTransport transport)
      pure { client with transport := transport }
    else pure client
  emit (.setTimeout timeoutDuration)
  pure { client with timeout := timeoutDuration }

/-- The constructor `mutate.NewProjectsCache(client, addr, user, pass, resync)`.
Its body lives in `internal/mutate`; the call is recorded and the cache it
returns is identified by the arguments. -/
def mutate.NewProjectsCache (client : HttpClient) (addr user pass : String)
    (resync : Duration) : Proc ProjectsCache := do
  emit (.newProjectsCache client addr user pass resync)
  pure { client := client, addr := addr, user := user, pass := pass, resync := resync }

/-- The body of the goroutine started by `main`:
`_, _ = projectsCache.List()`. Both results are bound and dropped. -/
def warmCache (env : Env) (projectsCache : ProjectsCache) : Goroutine :=
  let (_, _) := env.list projectsCache
  { listCalls := [projectsCache], exit := none }

/-- The function `main` of `main.go`, from the point where `flag.Parse()` has
returned. -/
def main (env : Env) : Proc Unit := do
  let harborUser := env.getenv "HARBOR_USER"
  let harborPass := env.getenv "HARBOR_PASS"
  let resyncDuration ← mustParseDuration env env.flags.resyncDur
  let timeoutDuration ← mustParseDuration env env.flags.timeoutDur
  emit .setLogger
  let cfg ← GetConfigOrDie env
  emit (.newManager cfg (managerOptions env.flags))
  match env.newManager cfg (managerOptions env.flags) with
  | .error err => do
    emit (.logError err "unable to start harbor-container-webhook")
    osExit 1
  | .ok mgr => do
    let client ← buildClient env.flags.skipVerify timeoutDuration
    let projectsCache ←
      mutate.NewProjectsCache client env.flags.harborAddr harborUser harborPass resyncDuration
    emit (.go (warmCache env projectsCache))
    emit (.newDecoder scheme)
    let (decoder, _) := env.newDecoder scheme
    let mutate : PodContainerProxier :=
      { client := { owner := mgr }, cache := projectsCache, decoder := decoder,
        harborEndpoint := env.flags.harborAddr }
    emit (.register "/mutate-v1-pod" mutate)
    emit (.logInfo "starting harbor-container-webhook")
    emit (.start mgr)
    match env.start mgr with
    | some err => do
      emit (.logError err "problem running harbor-container-webhook")
      osExit 1
    | none => pure ()

/-- The status with which a run ended the process through `os.Exit`, if it
did. -/
def Proc.exitStatus {α : Type} (p : Proc α) : Option Nat :=
  match p.result with
  | .error code => some code
  | .ok _ => none

/-! ## The rewrite core of `internal/mutate`

The definitions of this section follow sections 3, 4 and 8 of the
specification of the webhook, not Go code.
-/

/-- Modelled from the spec: the `tagOrDigest` component of an
`ImageReference` (section 3). A reference carries a tag, a digest, or neither;
the two are kept apart so that a digest is never written back as a tag. -/
inductive TagOrDigest where
  | absent
  | tag (t : String)
  | digest (d : String)
  deriving DecidableEq, Repr

/-- Modelled from the spec: `ImageReference`, the parsed form
`{registryHost, repositoryPath, tagOrDigest}` of an image string (section 3).
`registryHost` is `none` for a reference that omits the host. -/
structure ImageReference where
  registryHost : Option String
  repositoryPath : String
  tagOrDigest : TagOrDigest
  deriving DecidableEq, Repr

/-- Modelled from the spec: `RewritePlan`, either `NoChange` or
`Rewrite{newReference}` (section 3). -/
inductive RewritePlan where
  | noChange
  | rewrite (newReference : ImageReference)
  deriving DecidableEq, Repr

/-- Modelled from the spec: the default-registry resolution of section 4.2
step 2, kept injectable as section 9 asks: the host assumed for a reference
without one, and the path normalisation that goes with it. -/
structure RegistryPolicy where
  defaultHost : String
  defaultPath : String → String

/-- Modelled from the spec: the resolution a container runtime applies to
unqualified Docker Hub images (section 8): host `docker.io`, and `library/`
in front of a one-component path. -/
def dockerPolicy : RegistryPolicy :=
  { defaultHost := "docker.io"
    defaultPath := fun p => if '/' ∈ p.data then p else "library/" ++ p }

/-- Cut a list of characters at the first occurrence of `c`. -/
def splitFirst (c : Char) : List Char → Option (List Char × List Char)
  | [] => none
  | x :: xs =>
    if x = c then some ([], xs)
    else match splitFirst c xs with
      | some (a, b) => some (x :: a, b)
      | none => none

/-- Whether the first component of a name is a registry host: it contains a
dot or a colon, or is `localhost`. -/
def looksLikeHost (comp : List Char) : Bool :=
  decide ('.' ∈ comp) || decide (':' ∈ comp) || decide (comp = "localhost".data)

/-- Modelled from the spec: the host of a name, if it has one, and what
follows it. The first component is the host when it looks like one; otherwise
the reference omits the host. -/
def splitHost (body : List Char) : Option (List Char) × List Char :=
  match splitFirst '/' body with
  | some (comp, rest) => if looksLikeHost comp then (some comp, rest) else (none, body)
  | none => (none, body)

/-- Modelled from the spec: step 1 of section 4.2, parsing a raw image string
into host, path and tag-or-digest. A string with an empty path, an empty tag
or digest, or both a tag and a digest is malformed. -/
def parseImage (raw : String) : Option ImageReference :=
  let (body, digest) : List Char × Option (List Char) :=
    match splitFirst '@' raw.data with
    | some (b, d) => (b, some d)
    | none => (raw.data, none)
  let (host, rest) := splitHost body
  let (path, tag) : List Char × Option (List Char) :=
    match splitFirst ':' rest with
    | some (p, t) => (p, some t)
    | none => (rest, none)
  if path = [] then none
  else
    match tag, digest with
    | some _, some _ => none
    | some t, none =>
      if t = [] then none
      else some { registryHost := host.map String.mk, repositoryPath := String.mk path,
                  tagOrDigest := .tag (String.mk t) }
    | none, some d =>
      if d = [] then none
      else some { registryHost := host.map String.mk, repositoryPath := String.mk path,
                  tagOrDigest := .digest (String.mk d) }
    | none, none =>
      some { registryHost := host.map String.mk, repositoryPath := String.mk path,
             tagOrDigest := .absent }

/-- Modelled from the spec: writing a tag or digest back, a tag after `:` and
a digest after `@` (section 3, the round-trip invariant). -/
def TagOrDigest.render : TagOrDigest → String
  | .absent => ""
  | .tag t => ":" ++ t
  | .digest d => "@" ++ d

/-- Modelled from the spec: an `ImageReference` written back as a string. -/
def ImageReference.render (r : ImageReference) : String :=
  match r.registryHost with
  | some h => h ++ "/" ++ r.repositoryPath ++ r.tagOrDigest.render
  | none => r.repositoryPath ++ r.tagOrDigest.render

/-- Modelled from the spec: the effective registry host of section 4.2
step 2. -/
def effectiveHost (policy : RegistryPolicy) (r : ImageReference) : String :=
  match r.registryHost with
  | some h => h
  | none => policy.defaultHost

/-- Modelled from the spec: the repository path after default resolution;
only a reference without a host is normalised. -/
def effectivePath (policy : RegistryPolicy) (r : ImageReference) : String :=
  match r.registryHost with
  | some _ => r.repositoryPath
  | none => policy.defaultPath r.repositoryPath

/-- Modelled from the spec: looking a host up in the snapshot's
`RegistryEndpoint` set (section 4.2 step 3). -/
def lookup (snapshot : CacheSnapshot) (host : String) : Option ProxyProject :=
  snapshot.find? (fun p => p.registryEndpoint == host)

/-- Modelled from the spec: steps 2 to 4 of section 4.2 for a parsed
reference. A reference whose host is the proxy endpoint itself is left alone
(step 4); otherwise a match in the snapshot yields the proxy endpoint as host,
the project path in front of the repository path, and the same tag or digest
(step 3). -/
def plan (policy : RegistryPolicy) (snapshot : CacheSnapshot) (harborEndpoint : String)
    (r : ImageReference) : RewritePlan :=
  if r.registryHost = some harborEndpoint then .noChange
  else
    match lookup snapshot (effectiveHost policy r) with
    | none => .noChange
    | some project =>
      .rewrite { registryHost := some harborEndpoint
                 repositoryPath := project.projectPath ++ "/" ++ effectivePath policy r
                 tagOrDigest := r.tagOrDigest }

/-- Modelled from the spec: section 4.2 from step 1 on, for a raw image
string. Malformed input yields `NoChange`. -/
def planImage (policy : RegistryPolicy) (snapshot : CacheSnapshot) (harborEndpoint : String)
    (raw : String) : RewritePlan :=
  match parseImage raw with
  | none => .noChange
  | some r => plan policy snapshot harborEndpoint r

/-- Modelled from the spec: the rewrite of section 8, from image string to
image string: the string itself for `NoChange`, the new reference written
back otherwise. This is the image a container ends up with. -/
def rewriteImage (policy : RegistryPolicy) (snapshot : CacheSnapshot) (harborEndpoint : String)
    (raw : String) : String :=
  match planImage policy snapshot harborEndpoint raw with
  | .noChange => raw
  | .rewrite r => r.render

/-- Modelled from the spec: the state of the Registry-Mapping Cache of
section 4.1, the snapshot of the last successful refresh, `none` as long as no
refresh has succeeded. -/
structure CacheState where
  held : Option CacheSnapshot
  deriving DecidableEq, Repr

/-- Modelled from the spec: the typed cold-cache signal of section 7. -/
inductive CacheError where
  | notYetPopulated
  deriving DecidableEq, Repr

/-- Modelled from the spec: `List()` of section 4.1, the held snapshot, or
an empty snapshot with the "not yet populated" error. -/
def CacheState.List (c : CacheState) : CacheSnapshot × Option CacheError :=
  match c.held with
  | some s => (s, none)
  | none => ([], some .notYetPopulated)

/-- Modelled from the spec: a container of a decoded pod, with its image
field (section 6). -/
structure Container where
  name : String
  image : String
  deriving DecidableEq, Repr

/-- Modelled from the spec: the decoded pod of section 6, its init-containers
and containers in order. -/
structure Pod where
  initContainers : List Container
  containers : List Container
  deriving DecidableEq, Repr

/-- Modelled from the spec: which of the two sequences a patched container
belongs to. -/
inductive ContainerKind where
  | initContainer
  | container
  deriving DecidableEq, Repr

/-- Modelled from the spec: one entry of the patch, the new value of one image
field. -/
structure ImagePatch where
  kind : ContainerKind
  index : Nat
  image : String
  deriving DecidableEq, Repr

/-- Modelled from the spec: the admission decision of the glossary, allow or
deny, with an optional patch on allow. -/
inductive AdmissionDecision where
  | allow (patch : Option (List ImagePatch))
  | deny (reason : String)
  deriving DecidableEq, Repr

/-- Modelled from the spec: the patch entries for one sequence of containers,
one for each container whose plan is a rewrite (section 4.3). -/
def imagePatches (policy : RegistryPolicy) (snapshot : CacheSnapshot) (harborEndpoint : String)
    (kind : ContainerKind) (cs : List Container) : List ImagePatch :=
  cs.enum.filterMap fun ic =>
    match planImage policy snapshot harborEndpoint ic.2.image with
    | .noChange => none
    | .rewrite r => some { kind := kind, index := ic.1, image := r.render }

/-- Modelled from the spec: `Handle(pod)` of section 4.3 for the handler that
`main` registers. A cache that reports "not yet populated" admits the pod
unmodified; otherwise the pod is allowed, with a patch when some image
changes. -/
def PodContainerProxier.Handle (p : PodContainerProxier) (policy : RegistryPolicy)
    (cache : CacheState) (pod : Pod) : AdmissionDecision :=
  match cache.List with
  | (_, some _) => .allow none
  | (snapshot, none) =>
    let patch :=
      imagePatches policy snapshot p.harborEndpoint .initContainer pod.initContainers ++
        imagePatches policy snapshot p.harborEndpoint .container pod.containers
    if patch = [] then .allow none else .allow (some patch)

/-! ## Concrete surroundings used in examples -/

/-- A few points of the graph of `time.ParseDuration`; every other string
is answered with an error here. -/
def sampleParseDuration : String → Except String Duration
  | "1m" => .ok 60000000000
  | "2m" => .ok 120000000000
  | "30s" => .ok 30000000000
  | "0" => .ok 0
  | "-5s" => .ok (-5000000000)
  | s => .error ("time: invalid duration " ++ s)

/-- Surroundings in which every collaborator succeeds: no environment
variable is set, a kube config is found, the manager is created and runs until
it is stopped, and the cache is still cold when the warm-up call arrives. -/
def sampleEnv (flags : Flags) : Env :=
  { flags := flags
    getenv := fun _ => ""
    parseDuration := sampleParseDuration
    getConfig := .ok { host := "https://10.96.0.1:443" }
    newManager := fun cfg opts => .ok { config := cfg, options := opts }
    newDecoder := fun s => (some { scheme := s }, none)
    start := fun _ => none
    list := fun _ => ([], some "not yet populated") }

/-! ## Derived notions used to state the results -/

/-- The client that `buildClient` returns. -/
def builtClient (skipVerify : Bool) (timeoutDuration : Duration) : HttpClient :=
  match (buildClient skipVerify timeoutDuration).result with
  | .ok c => c
  | .error _ => cleanhttp.DefaultClient 0

/-- The cache `main` constructs once both durations are parsed. -/
def mainCache (env : Env) (r t : Duration) : ProjectsCache :=
  { client := builtClient env.flags.skipVerify t, addr := env.flags.harborAddr,
    user := env.getenv "HARBOR_USER", pass := env.getenv "HARBOR_PASS", resync := r }

/-- The handler `main` registers. -/
def mainHandler (env : Env) (r t : Duration) (mgr : Manager) : PodContainerProxier :=
  { client := { owner := mgr }, cache := mainCache env r t,
    decoder := (env.newDecoder scheme).1, harborEndpoint := env.flags.harborAddr }

/-- The events of `main` from manager creation up to the call of `mgr.Start`. -/
def servingEvents (env : Env) (r t : Duration) (cfg : RestConfig) (mgr : Manager) : List Event :=
  [.setLogger, .getConfig, .newManager cfg (managerOptions env.flags)] ++
    (buildClient env.flags.skipVerify t).trace ++
    [.newProjectsCache (builtClient env.flags.skipVerify t) env.flags.harborAddr
        (env.getenv "HARBOR_USER") (env.getenv "HARBOR_PASS") r,
      .go { listCalls := [mainCache env r t], exit := none },
      .newDecoder scheme,
      .register "/mutate-v1-pod" (mainHandler env r t mgr),
      .logInfo "starting harbor-container-webhook",
      .start mgr]

/-- Whether an event is the start of a goroutine. -/
def Event.isGo : Event → Bool
  | .go _ => true
  | _ => false

/-- Whether an answer of a fallible call is an error. -/
def failed {ε α : Type} : Except ε α → Bool
  | .error _ => true
  | .ok _ => false

/-- Case (i) of the exit analysis: `time.ParseDuration` does not accept the
value of `--resync-interval` or that of `--timeout`. -/
def DurationRejected (env : Env) : Prop :=
  failed (env.parseDuration env.flags.resyncDur) = true ∨
    failed (env.parseDuration env.flags.timeoutDur) = true

/-- No kube config can be loaded, so that `ctrl.GetConfigOrDie()` ends the
process. -/
def ConfigMissing (env : Env) : Prop :=
  failed env.getConfig = true

/-- Case (ii): `ctrl.NewManager` returns an error for the options of `main`. -/
def ManagerFails (env : Env) : Prop :=
  match env.getConfig with
  | .ok cfg => failed (env.newManager cfg (managerOptions env.flags)) = true
  | .error _ => False

/-- Case (iii): `mgr.Start` returns an error. -/
def StartFails (env : Env) : Prop :=
  match env.getConfig with
  | .ok cfg =>
    match env.newManager cfg (managerOptions env.flags) with
    | .ok mgr => (env.start mgr).isSome = true
    | .error _ => False
  | .error _ => False

instance (env : Env) : Decidable (DurationRejected env) := by
  unfold DurationRejected; infer_instance

instance (env : Env) : Decidable (ConfigMissing env) := by
  unfold ConfigMissing; infer_instance

instance (env : Env) : Decidable (ManagerFails env) := by
  unfold ManagerFails; split <;> infer_instance

instance (env : Env) : Decidable (StartFails env) := by
  unfold StartFails; split
  · split <;> infer_instance
  · infer_instance

/-- Surroundings as in `sampleEnv`, except that no kube config is found. -/
def noConfigEnv : Env :=
  { sampleEnv {} with getConfig := .error "could not locate a kubeconfig" }

/-- Surroundings as in `sampleEnv`, except that `ctrl.NewManager` fails. -/
def noManagerEnv : Env :=
  { sampleEnv {} with newManager := fun _ _ => .error "no manager" }

/-- A proxy endpoint that reads as a registry host when an image string that
starts with it is parsed: free of `/` and `@`, and with a dot or a colon in
it, or equal to `localhost`. -/
def HostLike (endpoint : String) : Prop :=
  '/' ∉ endpoint.data ∧ '@' ∉ endpoint.data ∧ looksLikeHost endpoint.data = true

instance (endpoint : String) : Decidable (HostLike endpoint) := by
  unfold HostLike; infer_instance

/-- An image name without registry host, tag or digest: non-empty, free of
`@` and `:`, and with a first path component, if there are several, that does
not look like a host. -/
def UnqualifiedName (name : String) : Prop :=
  name.data ≠ [] ∧ '@' ∉ name.data ∧ ':' ∉ name.data ∧ (splitHost name.data).1 = none

/-- A tag: non-empty and free of `/` and `@`. -/
def PlainTag (tag : String) : Prop :=
  tag.data ≠ [] ∧ '/' ∉ tag.data ∧ '@' ∉ tag.data

/-- The snapshot maps the registry `host` to the project path `path`. -/
def MapsTo (snapshot : CacheSnapshot) (host path : String) : Prop :=
  (lookup snapshot host).map (fun project => project.projectPath) = some path

instance (name : String) : Decidable (UnqualifiedName name) := by
  unfold UnqualifiedName; infer_instance

instance (tag : String) : Decidable (PlainTag tag) := by
  unfold PlainTag; infer_instance

instance (snapshot : CacheSnapshot) (host path : String) :
    Decidable (MapsTo snapshot host path) := by
  unfold MapsTo; infer_instance

/-! ## How `main` runs, path by path -/

theorem mustParseDuration_ok (env : Env) (s : String) (d : Duration)
    (h : env.parseDuration s = .ok d) : mustParseDuration env s = ⟨[], .ok d⟩ := by
  simp [mustParseDuration, h, pure, Proc.ret]

theorem mustParseDuration_error (env : Env) (s : String) (e : String)
    (h : env.parseDuration s = .error e) :
    mustParseDuration env s = ⟨[.logError e ("invalid duration: " ++ s)], .error 1⟩ := by
  simp [mustParseDuration, h, bind, Proc.andThen, emit, osExit]

theorem builtClient_timeout (sv : Bool) (t : Duration) : (builtClient sv t).timeout = t := by
  cases sv <;> rfl

theorem buildClient_trace (sv : Bool) (t : Duration) :
    (buildClient sv t).trace =
      if sv then
        [.defaultClient 0, .defaultTransport 1, .setTransport (builtClient sv t).transport,
          .setTimeout t]
      else [.defaultClient 0, .setTimeout t] := by
  cases sv <;> rfl

theorem main_of_resync_error (env : Env) (e : String)
    (hr : env.parseDuration env.flags.resyncDur = .error e) :
    main env = ⟨[.logError e ("invalid duration: " ++ env.flags.resyncDur)], .error 1⟩ := by
  simp [main, bind, Proc.andThen, mustParseDuration, emit, osExit, hr]

theorem main_of_timeout_error (env : Env) (r : Duration) (e : String)
    (hr : env.parseDuration env.flags.resyncDur = .ok r)
    (ht : env.parseDuration env.flags.timeoutDur = .error e) :
    main env = ⟨[.logError e ("invalid duration: " ++ env.flags.timeoutDur)], .error 1⟩ := by
  simp [main, bind, Proc.andThen, mustParseDuration, emit, osExit, pure, Proc.ret, hr, ht]

theorem main_of_config_error (env : Env) (r t : Duration) (e : String)
    (hr : env.parseDuration env.flags.resyncDur = .ok r)
    (ht : env.parseDuration env.flags.timeoutDur = .ok t)
    (hc : env.getConfig = .error e) :
    main env = ⟨[.setLogger, .getConfig, .logError e "unable to get kubeconfig"], .error 1⟩ := by
  simp [main, bind, Proc.andThen, mustParseDuration, GetConfigOrDie, emit, osExit, pure,
    Proc.ret, hr, ht, hc]

theorem main_of_manager_error (env : Env) (r t : Duration) (cfg : RestConfig) (e : String)
    (hr : env.parseDuration env.flags.resyncDur = .ok r)
    (ht : env.parseDuration env.flags.timeoutDur = .ok t)
    (hc : env.getConfig = .ok cfg)
    (hm : env.newManager cfg (managerOptions env.flags) = .error e) :
    main env = ⟨[.setLogger, .getConfig, .newManager cfg (managerOptions env.flags),
      .logError e "unable to start harbor-container-webhook"], .error 1⟩ := by
  simp [main, bind, Proc.andThen, mustParseDuration, GetConfigOrDie, emit, osExit, pure,
    Proc.ret, hr, ht, hc, hm]

theorem main_of_start_ok (env : Env) (r t : Duration) (cfg : RestConfig) (mgr : Manager)
    (hr : env.parseDuration env.flags.resyncDur = .ok r)
    (ht : env.parseDuration env.flags.timeoutDur = .ok t)
    (hc : env.getConfig = .ok cfg)
    (hm : env.newManager cfg (managerOptions env.flags) = .ok mgr)
    (hs : env.start mgr = none) :
    main env = ⟨servingEvents env r t cfg mgr, .ok ()⟩ := by
  cases hsv : env.flags.skipVerify <;>
    simp [main, bind, Proc.andThen, mustParseDuration, GetConfigOrDie, emit, osExit, pure,
      Proc.ret, hr, ht, hc, hm, hs, hsv, servingEvents, mainHandler, mainCache, builtClient,
      buildClient, mutate.NewProjectsCache, warmCache]

theorem main_of_start_error (env : Env) (r t : Duration) (cfg : RestConfig) (mgr : Manager)
    (e : String)
    (hr : env.parseDuration env.flags.resyncDur = .ok r)
    (ht : env.parseDuration env.flags.timeoutDur = .ok t)
    (hc : env.getConfig = .ok cfg)
    (hm : env.newManager cfg (managerOptions env.flags) = .ok mgr)
    (hs : env.start mgr = some e) :
    main env = ⟨servingEvents env r t cfg mgr ++
      [.logError e "problem running harbor-container-webhook"], .error 1⟩ := by
  cases hsv : env.flags.skipVerify <;>
    simp [main, bind, Proc.andThen, mustParseDuration, GetConfigOrDie, emit, osExit, pure,
      Proc.ret, hr, ht, hc, hm, hs, hsv, servingEvents, mainHandler, mainCache, builtClient,
      buildClient, mutate.NewProjectsCache, warmCache]

/-- Every run of `main` follows one of six paths. -/
theorem main_cases (env : Env) :
    (∃ e, env.parseDuration env.flags.resyncDur = .error e ∧
      main env = ⟨[.logError e ("invalid duration: " ++ env.flags.resyncDur)], .error 1⟩) ∨
    (∃ r e, env.parseDuration env.flags.resyncDur = .ok r ∧
      env.parseDuration env.flags.timeoutDur = .error e ∧
      main env = ⟨[.logError e ("invalid duration: " ++ env.flags.timeoutDur)], .error 1⟩) ∨
    (∃ r t e, env.parseDuration env.flags.resyncDur = .ok r ∧
      env.parseDuration env.flags.timeoutDur = .ok t ∧ env.getConfig = .error e ∧
      main env = ⟨[.setLogger, .getConfig, .logError e "unable to get kubeconfig"], .error 1⟩) ∨
    (∃ r t cfg e, env.parseDuration env.flags.resyncDur = .ok r ∧
      env.parseDuration env.flags.timeoutDur = .ok t ∧ env.getConfig = .ok cfg ∧
      env.newManager cfg (managerOptions env.flags) = .error e ∧
      main env = ⟨[.setLogger, .getConfig, .newManager cfg (managerOptions env.flags),
        .logError e "unable to start harbor-container-webhook"], .error 1⟩) ∨
    (∃ r t cfg mgr, env.parseDuration env.flags.resyncDur = .ok r ∧
      env.parseDuration env.flags.timeoutDur = .ok t ∧ env.getConfig = .ok cfg ∧
      env.newManager cfg (managerOptions env.flags) = .ok mgr ∧ env.start mgr = none ∧
      main env = ⟨servingEvents env r t cfg mgr, .ok ()⟩) ∨
    (∃ r t cfg mgr e, env.parseDuration env.flags.resyncDur = .ok r ∧
      env.parseDuration env.flags.timeoutDur = .ok t ∧ env.getConfig = .ok cfg ∧
      env.newManager cfg (managerOptions env.flags) = .ok mgr ∧ env.start mgr = some e ∧
      main env = ⟨servingEvents env r t cfg mgr ++
        [.logError e "problem running harbor-container-webhook"], .error 1⟩) := by
  rcases hr : env.parseDuration env.flags.resyncDur with e | r
  · exact Or.inl ⟨e, rfl, main_of_resync_error env e hr⟩
  rcases ht : env.parseDuration env.flags.timeoutDur with e | t
  · exact Or.inr (Or.inl ⟨r, e, rfl, rfl, main_of_timeout_error env r e hr ht⟩)
  rcases hc : env.getConfig with e | cfg
  · exact Or.inr (Or.inr (Or.inl ⟨r, t, e, rfl, rfl, rfl, main_of_config_error env r t e hr ht hc⟩))
  rcases hm : env.newManager cfg (managerOptions env.flags) with e | mgr
  · exact Or.inr (Or.inr (Or.inr (Or.inl
      ⟨r, t, cfg, e, rfl, rfl, rfl, hm, main_of_manager_error env r t cfg e hr ht hc hm⟩)))
  rcases hs : env.start mgr with _ | e
  · exact Or.inr (Or.inr (Or.inr (Or.inr (Or.inl
      ⟨r, t, cfg, mgr, rfl, rfl, rfl, hm, hs, main_of_start_ok env r t cfg mgr hr ht hc hm hs⟩))))
  · exact Or.inr (Or.inr (Or.inr (Or.inr (Or.inr
      ⟨r, t, cfg, mgr, e, rfl, rfl, rfl, hm, hs,
        main_of_start_error env r t cfg mgr e hr ht hc hm hs⟩))))

theorem newProjectsCache_mem_servingEvents (env : Env) (r t : Duration) (cfg : RestConfig)
    (mgr : Manager) (c : HttpClient) (a u p : String) (d : Duration) :
    Event.newProjectsCache c a u p d ∈ servingEvents env r t cfg mgr ↔
      c = builtClient env.flags.skipVerify t ∧ a = env.flags.harborAddr ∧
        u = env.getenv "HARBOR_USER" ∧ p = env.getenv "HARBOR_PASS" ∧ d = r := by
  cases hsv : env.flags.skipVerify <;> simp [servingEvents, buildClient_trace, hsv]

/-- The cache is constructed only on the paths that reach `mgr.Start`, and
then from the parsed durations and the client `buildClient` returned. -/
theorem newProjectsCache_mem_main (env : Env) (c : HttpClient) (a u p : String) (d : Duration)
    (h : Event.newProjectsCache c a u p d ∈ (main env).trace) :
    ∃ r t cfg mgr, env.parseDuration env.flags.resyncDur = .ok r ∧
      env.parseDuration env.flags.timeoutDur = .ok t ∧ env.getConfig = .ok cfg ∧
      env.newManager cfg (managerOptions env.flags) = .ok mgr ∧
      (main env).trace.take (servingEvents env r t cfg mgr).length = servingEvents env r t cfg mgr ∧
      c = builtClient env.flags.skipVerify t ∧ a = env.flags.harborAddr ∧
      u = env.getenv "HARBOR_USER" ∧ p = env.getenv "HARBOR_PASS" ∧ d = r := by
  rcases main_cases env with ⟨e, _, hmain⟩ | ⟨r, e, _, _, hmain⟩ | ⟨r, t, e, _, _, _, hmain⟩ |
    ⟨r, t, cfg, e, _, _, _, _, hmain⟩ | ⟨r, t, cfg, mgr, hr, ht, hc, hm, _, hmain⟩ |
    ⟨r, t, cfg, mgr, e, hr, ht, hc, hm, _, hmain⟩
  · simp [hmain] at h
  · simp [hmain] at h
  · simp [hmain] at h
  · simp [hmain] at h
  · rw [hmain] at h
    refine ⟨r, t, cfg, mgr, hr, ht, hc, hm, by simp [hmain], ?_⟩
    exact (newProjectsCache_mem_servingEvents env r t cfg mgr c a u p d).1 h
  · rw [hmain] at h
    refine ⟨r, t, cfg, mgr, hr, ht, hc, hm, by simp [hmain], ?_⟩
    simp only [List.mem_append, List.mem_singleton] at h
    rcases h with h | h
    · exact (newProjectsCache_mem_servingEvents env r t cfg mgr c a u p d).1 h
    · cases h

/-! ## Results about `main.go` -/

/-- C1 fails: started with `--timeout=0`, `main` accepts the value and hands
the cache the client as `cleanhttp.DefaultClient()` made it, with `Timeout`
zero, under which net/http sets no deadline: the outbound calls of a refresh
are not bounded by the timeout. -/
theorem timeout_zero_leaves_calls_unbounded :
    Event.newProjectsCache (builtClient false 0) ":8080" "" "" 60000000000 ∈
        (main (sampleEnv { timeoutDur := "0" })).trace ∧
      (main (sampleEnv { timeoutDur := "0" })).exitStatus = none ∧
      (sampleEnv { timeoutDur := "0" }).parseDuration "0" = .ok 0 ∧
      builtClient false 0 = cleanhttp.DefaultClient 0 ∧
      (builtClient false 0).deadline = none := by
  refine ⟨by decide, by decide, rfl, by decide, by decide⟩

/-- C1, amended: whenever `main` reaches the construction of the cache, the
HTTP client handed to `mutate.NewProjectsCache` has its `Timeout` equal to the
duration parsed from `--timeout`; the client is the one `buildClient` returns,
which sets the timeout as its last step, after the TLS branch and whatever
`--skip-verify` is. A request through that client is bounded by that timeout
when the duration is positive, and has no deadline when it is zero or
negative. -/
theorem client_deadline_is_positive_timeout (env : Env) (client : HttpClient)
    (addr user pass : String) (resync : Duration)
    (h : Event.newProjectsCache client addr user pass resync ∈ (main env).trace) :
    env.parseDuration env.flags.timeoutDur = .ok client.timeout ∧
      client = builtClient env.flags.skipVerify client.timeout ∧
      (∀ sv t, (builtClient sv t).timeout = t ∧
        (buildClient sv t).trace.getLast? = some (.setTimeout t)) ∧
      (0 < client.timeout → client.deadline = some client.timeout) ∧
      (client.timeout ≤ 0 → client.deadline = none) := by
  obtain ⟨r, t, cfg, mgr, _, ht, _, _, _, hc, _⟩ := newProjectsCache_mem_main env _ _ _ _ _ h
  have htime : client.timeout = t := by rw [hc]; exact builtClient_timeout _ _
  refine ⟨by rw [htime]; exact ht, by rw [htime]; exact hc, fun sv t => ?_, ?_, ?_⟩
  · cases sv <;> exact ⟨rfl, rfl⟩
  · intro hpos
    simp [HttpClient.deadline, hpos]
  · intro hle
    simp [HttpClient.deadline, not_lt.mpr hle]

/-- Instance of the amended C1: with `--skip-verify --timeout=30s` every
request has thirty seconds. -/
theorem client_deadline_is_positive_timeout_witness :
    Event.newProjectsCache (builtClient true 30000000000) ":8080" "" "" 60000000000 ∈
        (main (sampleEnv { skipVerify := true, timeoutDur := "30s" })).trace ∧
      (0 : Duration) < (builtClient true 30000000000).timeout ∧
      (builtClient true 30000000000).deadline = some (builtClient true 30000000000).timeout :=
  ⟨by decide, by decide,
    (client_deadline_is_positive_timeout
      (sampleEnv { skipVerify := true, timeoutDur := "30s" })
      (builtClient true 30000000000) ":8080" "" "" 60000000000 (by decide)).2.2.2.1
      (by decide)⟩

/-- C2: the client handed to `mutate.NewProjectsCache` skips certificate
verification exactly when `--skip-verify` is true; when the flag is false the
transport is the one `cleanhttp.DefaultClient()` made and no assignment to
`client.Transport` is executed. -/
theorem client_skips_verification_iff_flag (env : Env) (client : HttpClient)
    (addr user pass : String) (resync : Duration)
    (h : Event.newProjectsCache client addr user pass resync ∈ (main env).trace) :
    (client.transport.tlsClientConfig = some { insecureSkipVerify := true } ↔
        env.flags.skipVerify = true) ∧
      (env.flags.skipVerify = false →
        client.transport = (cleanhttp.DefaultClient 0).transport ∧
          client.transport.tlsClientConfig = none ∧
          ∀ x, Event.setTransport x ∉ (main env).trace) := by
  obtain ⟨r, t, cfg, mgr, _, _, _, _, htr, hc, _⟩ := newProjectsCache_mem_main env _ _ _ _ _ h
  subst hc
  constructor
  · cases hsv : env.flags.skipVerify
    · simp [builtClient, buildClient, bind, Proc.andThen, emit, pure, Proc.ret,
        cleanhttp.DefaultClient, cleanhttp.DefaultTransport]
    · simp [builtClient, buildClient, bind, Proc.andThen, emit, pure, Proc.ret,
        cleanhttp.DefaultClient, cleanhttp.DefaultTransport]
  · intro hsv
    rw [hsv]
    refine ⟨rfl, rfl, ?_⟩
    intro x hx
    rcases main_cases env with ⟨e, _, hmain⟩ | ⟨r, e, _, _, hmain⟩ | ⟨r, t, e, _, _, _, hmain⟩ |
      ⟨r, t, cfg, e, _, _, _, _, hmain⟩ | ⟨r, t, cfg, mgr, hr, ht, hc, hm, _, hmain⟩ |
      ⟨r, t, cfg, mgr, e, hr, ht, hc, hm, _, hmain⟩ <;>
      simp [hmain, servingEvents, buildClient_trace, hsv] at hx

/-- Instances of C2: without the flag the default transport is kept, with
the flag verification is off. -/
theorem client_skips_verification_iff_flag_witness :
    (Event.newProjectsCache (builtClient false 60000000000) ":8080" "" "" 60000000000 ∈
        (main (sampleEnv {})).trace ∧
      (builtClient false 60000000000).transport = (cleanhttp.DefaultClient 0).transport) ∧
    (Event.newProjectsCache (builtClient true 60000000000) ":8080" "" "" 60000000000 ∈
        (main (sampleEnv { skipVerify := true })).trace ∧
      (builtClient true 60000000000).transport.tlsClientConfig =
        some { insecureSkipVerify := true }) :=
  ⟨⟨by decide,
      ((client_skips_verification_iff_flag (sampleEnv {}) (builtClient false 60000000000)
        ":8080" "" "" 60000000000 (by decide)).2 rfl).1⟩,
    ⟨by decide,
      (client_skips_verification_iff_flag (sampleEnv { skipVerify := true })
        (builtClient true 60000000000) ":8080" "" "" 60000000000 (by decide)).1.2 rfl⟩⟩

/-- C4 fails: started with `--timeout=2m --resync-interval=1m`, `main`
accepts both values and hands the cache a client whose timeout (two minutes)
exceeds the resync duration (one minute). -/
theorem timeout_may_exceed_resync :
    Event.newProjectsCache (builtClient false 120000000000) ":8080" "" "" 60000000000 ∈
        (main (sampleEnv { timeoutDur := "2m", resyncDur := "1m" })).trace ∧
      (main (sampleEnv { timeoutDur := "2m", resyncDur := "1m" })).exitStatus = none ∧
      ¬ (builtClient false 120000000000).timeout ≤ 60000000000 := by
  decide

/-- C4, amended: `main` hands the two parsed durations on as they are and
compares them nowhere; the client timeout is at most the resync duration
exactly when the parsed `--timeout` is at most the parsed `--resync-interval`,
which is so whenever the two flags carry the same text, as with the defaults. -/
theorem timeout_le_resync_iff_flags_ordered (env : Env) (client : HttpClient)
    (addr user pass : String) (resync : Duration)
    (h : Event.newProjectsCache client addr user pass resync ∈ (main env).trace) :
    (∀ t r, env.parseDuration env.flags.timeoutDur = .ok t →
        env.parseDuration env.flags.resyncDur = .ok r → (client.timeout ≤ resync ↔ t ≤ r)) ∧
      (env.flags.timeoutDur = env.flags.resyncDur → client.timeout ≤ resync) ∧
      ({} : Flags).timeoutDur = ({} : Flags).resyncDur := by
  obtain ⟨r, t, cfg, mgr, hr, ht, _, _, _, hc, _, _, _, hd⟩ :=
    newProjectsCache_mem_main env _ _ _ _ _ h
  have htime : client.timeout = t := by rw [hc]; exact builtClient_timeout _ _
  refine ⟨?_, ?_, rfl⟩
  · intro t2 r2 ht2 hr2
    rw [ht] at ht2
    rw [hr] at hr2
    cases ht2
    cases hr2
    rw [htime, hd]
  · intro heq
    rw [heq, hr] at ht
    cases ht
    rw [htime, hd]

/-- Instance of the amended C4: the defaults, one minute each. -/
theorem timeout_le_resync_iff_flags_ordered_witness :
    Event.newProjectsCache (builtClient false 60000000000) ":8080" "" "" 60000000000 ∈
        (main (sampleEnv {})).trace ∧
      (builtClient false 60000000000).timeout ≤ 60000000000 :=
  ⟨by decide,
    (timeout_le_resync_iff_flags_ordered (sampleEnv {}) (builtClient false 60000000000)
      ":8080" "" "" 60000000000 (by decide)).2.1 rfl⟩

/-- C3: the warm call. What `List()` answers has no influence on the run of
`main`; on every run that constructs the cache the trace goes on with one
goroutine that calls `List()` once on that cache and does not end the process,
then decoder creation, the registration at `/mutate-v1-pod` of a handler
holding that cache, and `mgr.Start`; no other goroutine is started. -/
theorem warm_call_once_and_ignored (env : Env) :
    (∀ answer : ProjectsCache → CacheSnapshot × Option String,
        main { env with list := answer } = main env) ∧
      (∀ cache, warmCache env cache = { listCalls := [cache], exit := none }) ∧
      (∀ c a u p d, Event.newProjectsCache c a u p d ∈ (main env).trace →
        ∃ pre post mgr handler,
          (main env).trace = pre ++
            [.newProjectsCache c a u p d,
              .go { listCalls := [⟨c, a, u, p, d⟩], exit := none },
              .newDecoder scheme,
              .register "/mutate-v1-pod" handler,
              .logInfo "starting harbor-container-webhook",
              .start mgr] ++ post ∧
          handler.cache = ⟨c, a, u, p, d⟩ ∧
          (∀ e ∈ pre ++ post, e.isGo = false)) ∧
      ((main env).trace.filter Event.isGo).length ≤ 1 := by
  refine ⟨fun answer => rfl, fun cache => rfl, ?_, ?_⟩
  · intro c a u p d h
    obtain ⟨r, t, cfg, mgr, hr, ht, hc, hm, _, rfl, rfl, rfl, rfl, hd⟩ :=
      newProjectsCache_mem_main env _ _ _ _ _ h
    subst hd
    rcases hs : env.start mgr with _ | e
    · refine ⟨[.setLogger, .getConfig, .newManager cfg (managerOptions env.flags)] ++
        (buildClient env.flags.skipVerify t).trace, [], mgr, mainHandler env d t mgr, ?_, rfl, ?_⟩
      · rw [main_of_start_ok env d t cfg mgr hr ht hc hm hs]
        simp [servingEvents, mainCache]
      · cases hsv : env.flags.skipVerify <;>
          simp [buildClient_trace, Event.isGo]
    · refine ⟨[.setLogger, .getConfig, .newManager cfg (managerOptions env.flags)] ++
        (buildClient env.flags.skipVerify t).trace,
        [.logError e "problem running harbor-container-webhook"], mgr,
        mainHandler env d t mgr, ?_, rfl, ?_⟩
      · rw [main_of_start_error env d t cfg mgr e hr ht hc hm hs]
        simp [servingEvents, mainCache]
      · cases hsv : env.flags.skipVerify <;>
          simp [buildClient_trace, Event.isGo]
  · rcases main_cases env with ⟨e, _, hmain⟩ | ⟨r, e, _, _, hmain⟩ | ⟨r, t, e, _, _, _, hmain⟩ |
      ⟨r, t, cfg, e, _, _, _, _, hmain⟩ | ⟨r, t, cfg, mgr, hr, ht, hc, hm, _, hmain⟩ |
      ⟨r, t, cfg, mgr, e, hr, ht, hc, hm, _, hmain⟩ <;>
      cases hsv : env.flags.skipVerify <;>
      simp [hmain, servingEvents, buildClient_trace, hsv, List.filter, Event.isGo]

/-- Instance of C3: the default run, the cache still cold when the goroutine
asks. -/
theorem warm_call_once_and_ignored_witness :
    Event.newProjectsCache (builtClient false 60000000000) ":8080" "" "" 60000000000 ∈
        (main (sampleEnv {})).trace ∧
      ∃ pre post mgr handler,
        (main (sampleEnv {})).trace = pre ++
          [.newProjectsCache (builtClient false 60000000000) ":8080" "" "" 60000000000,
            .go { listCalls := [⟨builtClient false 60000000000, ":8080", "", "", 60000000000⟩],
                  exit := none },
            .newDecoder scheme,
            .register "/mutate-v1-pod" handler,
            .logInfo "starting harbor-container-webhook",
            .start mgr] ++ post ∧
        handler.cache = ⟨builtClient false 60000000000, ":8080", "", "", 60000000000⟩ ∧
        (∀ e ∈ pre ++ post, e.isGo = false) :=
  ⟨by decide,
    (warm_call_once_and_ignored (sampleEnv {})).2.2.1 (builtClient false 60000000000)
      ":8080" "" "" 60000000000 (by decide)⟩

/-- C8 fails: with both durations accepted, `ctrl.NewManager` never failing
and `mgr.Start` never failing, the process still exits with status 1 when no
kube config can be loaded, because `ctrl.GetConfigOrDie()` exits. -/
theorem exit_one_without_the_three_causes :
    (main noConfigEnv).exitStatus = some 1 ∧
      noConfigEnv.parseDuration noConfigEnv.flags.resyncDur = .ok 60000000000 ∧
      noConfigEnv.parseDuration noConfigEnv.flags.timeoutDur = .ok 60000000000 ∧
      (∀ cfg opts, noConfigEnv.newManager cfg opts = .ok { config := cfg, options := opts }) ∧
      (∀ mgr, noConfigEnv.start mgr = none) ∧
      ¬ DurationRejected noConfigEnv ∧ ¬ ManagerFails noConfigEnv ∧ ¬ StartFails noConfigEnv := by
  exact ⟨by decide, rfl, rfl, fun _ _ => rfl, fun _ => rfl, by decide, by decide, by decide⟩

/-- C8, amended: `main` ends the process with status 1 in exactly four
situations and in no other: a duration flag is rejected, no kube config can be
loaded, `ctrl.NewManager` returns an error, `mgr.Start` returns an error. When
a duration is rejected the only thing that has happened is the call of
`setupLog.Error`: no manager, client or cache has been made and nothing is
registered. Neither the answer of `admission.NewDecoder` nor the environment
variables influence the exit status, and the credentials are passed on as
`os.Getenv` returned them. -/
theorem exit_one_iff (env : Env) :
    ((main env).exitStatus = some 1 ↔
        DurationRejected env ∨ ConfigMissing env ∨ ManagerFails env ∨ StartFails env) ∧
      (DurationRejected env →
        ∃ e s, (main env).trace = [.logError e ("invalid duration: " ++ s)]) ∧
      (∀ newDecoder getenv,
        (main { env with newDecoder := newDecoder, getenv := getenv }).exitStatus =
          (main env).exitStatus) ∧
      (∀ c a u p d, Event.newProjectsCache c a u p d ∈ (main env).trace →
        u = env.getenv "HARBOR_USER" ∧ p = env.getenv "HARBOR_PASS") := by
  refine ⟨?_, ?_, ?_, ?_⟩
  · rcases main_cases env with ⟨e, hr, hmain⟩ | ⟨r, e, hr, ht, hmain⟩ |
      ⟨r, t, e, hr, ht, hc, hmain⟩ | ⟨r, t, cfg, e, hr, ht, hc, hm, hmain⟩ |
      ⟨r, t, cfg, mgr, hr, ht, hc, hm, hs, hmain⟩ |
      ⟨r, t, cfg, mgr, e, hr, ht, hc, hm, hs, hmain⟩ <;>
      simp [hmain, Proc.exitStatus, DurationRejected, ConfigMissing, ManagerFails, StartFails,
        failed, *]
  · intro hrej
    rcases main_cases env with ⟨e, hr, hmain⟩ | ⟨r, e, hr, ht, hmain⟩ |
      ⟨r, t, e, hr, ht, hc, hmain⟩ | ⟨r, t, cfg, e, hr, ht, hc, hm, hmain⟩ |
      ⟨r, t, cfg, mgr, hr, ht, hc, hm, hs, hmain⟩ |
      ⟨r, t, cfg, mgr, e, hr, ht, hc, hm, hs, hmain⟩
    · exact ⟨e, _, by rw [hmain]⟩
    · exact ⟨e, _, by rw [hmain]⟩
    all_goals simp [DurationRejected, failed, hr, ht] at hrej
  · intro nd ge
    rcases main_cases env with ⟨e, hr, hmain⟩ | ⟨r, e, hr, ht, hmain⟩ |
      ⟨r, t, e, hr, ht, hc, hmain⟩ | ⟨r, t, cfg, e, hr, ht, hc, hm, hmain⟩ |
      ⟨r, t, cfg, mgr, hr, ht, hc, hm, hs, hmain⟩ |
      ⟨r, t, cfg, mgr, e, hr, ht, hc, hm, hs, hmain⟩
    · rw [hmain, main_of_resync_error { env with newDecoder := nd, getenv := ge } e hr]
    · rw [hmain, main_of_timeout_error { env with newDecoder := nd, getenv := ge } r e hr ht]
    · rw [hmain, main_of_config_error { env with newDecoder := nd, getenv := ge } r t e hr ht hc]
    · rw [hmain,
        main_of_manager_error { env with newDecoder := nd, getenv := ge } r t cfg e hr ht hc hm]
    · rw [hmain,
        main_of_start_ok { env with newDecoder := nd, getenv := ge } r t cfg mgr hr ht hc hm hs]
      rfl
    · rw [hmain,
        main_of_start_error { env with newDecoder := nd, getenv := ge } r t cfg mgr e hr ht hc
          hm hs]
      rfl
  · intro c a u p d h
    obtain ⟨r, t, cfg, mgr, _, _, _, _, _, _, _, hu, hp, _⟩ :=
      newProjectsCache_mem_main env _ _ _ _ _ h
    exact ⟨hu, hp⟩

/-- Instances of the amended C8: a rejected `--timeout` ends the run with
status 1 after the call of `setupLog.Error` alone, and with no environment
variable set the default run hands empty credentials to the cache. -/
theorem exit_one_iff_witness :
    (DurationRejected (sampleEnv { timeoutDur := "soon" }) ∧
      (main (sampleEnv { timeoutDur := "soon" })).exitStatus = some 1 ∧
      ∃ e s, (main (sampleEnv { timeoutDur := "soon" })).trace =
        [.logError e ("invalid duration: " ++ s)]) ∧
    (Event.newProjectsCache (builtClient false 60000000000) ":8080" "" "" 60000000000 ∈
        (main (sampleEnv {})).trace ∧ "" = (sampleEnv {}).getenv "HARBOR_USER" ∧
      "" = (sampleEnv {}).getenv "HARBOR_PASS") :=
  have hrej : DurationRejected (sampleEnv { timeoutDur := "soon" }) := by decide
  ⟨⟨hrej, (exit_one_iff (sampleEnv { timeoutDur := "soon" })).1.2 (Or.inl hrej),
      (exit_one_iff (sampleEnv { timeoutDur := "soon" })).2.1 hrej⟩,
    ⟨by decide,
      (exit_one_iff (sampleEnv {})).2.2.2 (builtClient false 60000000000) ":8080" "" ""
        60000000000 (by decide)⟩⟩

theorem register_mem_servingEvents (env : Env) (r t : Duration) (cfg : RestConfig)
    (mgr : Manager) (path : String) (handler : PodContainerProxier) :
    Event.register path handler ∈ servingEvents env r t cfg mgr ↔
      path = "/mutate-v1-pod" ∧ handler = mainHandler env r t mgr := by
  cases hsv : env.flags.skipVerify <;> simp [servingEvents, buildClient_trace, hsv]

/-- A handler is registered only on the paths that reach `mgr.Start`; it is
`mainHandler`, registered at `/mutate-v1-pod`, after the cache it holds has
been constructed and the warm-up goroutine started on that cache. -/
theorem register_mem_main (env : Env) (path : String) (handler : PodContainerProxier)
    (h : Event.register path handler ∈ (main env).trace) :
    ∃ r t mgr, env.parseDuration env.flags.resyncDur = .ok r ∧
      env.parseDuration env.flags.timeoutDur = .ok t ∧
      path = "/mutate-v1-pod" ∧ handler = mainHandler env r t mgr ∧
      Event.newProjectsCache (builtClient env.flags.skipVerify t) env.flags.harborAddr
        (env.getenv "HARBOR_USER") (env.getenv "HARBOR_PASS") r ∈ (main env).trace ∧
      Event.go { listCalls := [mainCache env r t], exit := none } ∈ (main env).trace := by
  rcases main_cases env with ⟨e, _, hmain⟩ | ⟨r, e, _, _, hmain⟩ | ⟨r, t, e, _, _, _, hmain⟩ |
    ⟨r, t, cfg, e, _, _, _, _, hmain⟩ | ⟨r, t, cfg, mgr, hr, ht, hc, hm, _, hmain⟩ |
    ⟨r, t, cfg, mgr, e, hr, ht, hc, hm, _, hmain⟩
  · simp [hmain] at h
  · simp [hmain] at h
  · simp [hmain] at h
  · simp [hmain] at h
  · rw [hmain] at h
    obtain ⟨hp, hh⟩ := (register_mem_servingEvents env r t cfg mgr path handler).1 h
    refine ⟨r, t, mgr, hr, ht, hp, hh, ?_, ?_⟩ <;>
      simp [hmain, servingEvents]
  · rw [hmain] at h
    simp only [List.mem_append, List.mem_singleton] at h
    rcases h with h | h
    · obtain ⟨hp, hh⟩ := (register_mem_servingEvents env r t cfg mgr path handler).1 h
      refine ⟨r, t, mgr, hr, ht, hp, hh, ?_, ?_⟩ <;>
        simp [hmain, servingEvents]
    · cases h

/-- On every run that rejects a duration flag nothing is written: the one
call of `setupLog.Error` comes before `ctrl.SetLogger`. -/
theorem written_of_durationRejected (env : Env) (h : DurationRejected env) :
    written (main env).trace = [] := by
  rcases main_cases env with ⟨e, hr, hmain⟩ | ⟨r, e, hr, ht, hmain⟩ |
    ⟨r, t, e, hr, ht, hc, hmain⟩ | ⟨r, t, cfg, e, hr, ht, hc, hm, hmain⟩ |
    ⟨r, t, cfg, mgr, hr, ht, hc, hm, hs, hmain⟩ |
    ⟨r, t, cfg, mgr, e, hr, ht, hc, hm, hs, hmain⟩
  · rw [hmain]
    simp [written, writtenFrom]
  · rw [hmain]
    simp [written, writtenFrom]
  all_goals simp [DurationRejected, failed, hr, ht] at h

/-- C9, the defect: started with `--resync-interval=abc`, `mustParseDuration`
hands the error to `setupLog.Error` and exits with status 1, but the call
comes before `ctrl.SetLogger`, so nothing is written; the same holds for a
rejected `--timeout`. The error path of `ctrl.NewManager`, which runs after
`ctrl.SetLogger`, does write its message. -/
theorem rejected_duration_exits_unlogged :
    sampleParseDuration "abc" = .error "time: invalid duration abc" ∧
      mustParseDuration (sampleEnv { resyncDur := "abc" }) "abc" =
        ⟨[.logError "time: invalid duration abc" "invalid duration: abc"], .error 1⟩ ∧
      (main (sampleEnv { resyncDur := "abc" })).exitStatus = some 1 ∧
      (main (sampleEnv { resyncDur := "abc" })).trace =
        [.logError "time: invalid duration abc" "invalid duration: abc"] ∧
      written (main (sampleEnv { resyncDur := "abc" })).trace = [] ∧
      (main (sampleEnv { timeoutDur := "abc" })).exitStatus = some 1 ∧
      written (main (sampleEnv { timeoutDur := "abc" })).trace = [] ∧
      (main noManagerEnv).exitStatus = some 1 ∧
      written (main noManagerEnv).trace =
        [.logError "no manager" "unable to start harbor-container-webhook"] := by
  refine ⟨rfl, rfl, by decide, by decide, by decide, by decide, by decide, by decide, by decide⟩

/-- C10: on every run the handler registered by `main` has `HarborEndpoint`
equal to the address argument of `mutate.NewProjectsCache`, both being the
value of `--harbor-addr` (`:8080` when the flag is absent); its `Cache` field
is the cache that was constructed and on which the warm-up goroutine calls
`List()`, and the cache is constructed at most once. -/
theorem handler_and_cache_share_harbor_addr (env : Env) :
    (∀ path handler, Event.register path handler ∈ (main env).trace →
        handler.harborEndpoint = env.flags.harborAddr ∧
          handler.cache.addr = handler.harborEndpoint ∧
          Event.newProjectsCache handler.cache.client handler.cache.addr handler.cache.user
            handler.cache.pass handler.cache.resync ∈ (main env).trace ∧
          Event.go { listCalls := [handler.cache], exit := none } ∈ (main env).trace) ∧
      (∀ c a u p d, Event.newProjectsCache c a u p d ∈ (main env).trace →
        a = env.flags.harborAddr) ∧
      (∀ c a u p d c2 a2 u2 p2 d2, Event.newProjectsCache c a u p d ∈ (main env).trace →
        Event.newProjectsCache c2 a2 u2 p2 d2 ∈ (main env).trace →
        (⟨c, a, u, p, d⟩ : ProjectsCache) = ⟨c2, a2, u2, p2, d2⟩) ∧
      ({} : Flags).harborAddr = ":8080" := by
  refine ⟨?_, ?_, ?_, rfl⟩
  · intro path handler h
    obtain ⟨r, t, mgr, _, _, _, hh, hcache, hgo⟩ := register_mem_main env path handler h
    subst hh
    exact ⟨rfl, rfl, hcache, hgo⟩
  · intro c a u p d h
    obtain ⟨r, t, cfg, mgr, _, _, _, _, _, _, ha, _⟩ := newProjectsCache_mem_main env _ _ _ _ _ h
    exact ha
  · intro c a u p d c2 a2 u2 p2 d2 h h2
    obtain ⟨r, t, cfg, mgr, hr, ht, _, _, _, rfl, rfl, rfl, rfl, rfl⟩ :=
      newProjectsCache_mem_main env _ _ _ _ _ h
    obtain ⟨r2, t2, cfg2, mgr2, hr2, ht2, _, _, _, rfl, rfl, rfl, rfl, rfl⟩ :=
      newProjectsCache_mem_main env _ _ _ _ _ h2
    rw [hr] at hr2
    rw [ht] at ht2
    cases hr2
    cases ht2
    rfl

/-- Instance of C10: started with `--harbor-addr=harbor.example.com`. -/
theorem handler_and_cache_share_harbor_addr_witness :
    Event.register "/mutate-v1-pod"
        (mainHandler (sampleEnv { harborAddr := "harbor.example.com" }) 60000000000 60000000000
          { config := { host := "https://10.96.0.1:443" },
            options := managerOptions { harborAddr := "harbor.example.com" } }) ∈
        (main (sampleEnv { harborAddr := "harbor.example.com" })).trace ∧
      (mainHandler (sampleEnv { harborAddr := "harbor.example.com" }) 60000000000 60000000000
          { config := { host := "https://10.96.0.1:443" },
            options := managerOptions { harborAddr := "harbor.example.com" } }).harborEndpoint =
        "harbor.example.com" :=
  ⟨by decide,
    ((handler_and_cache_share_harbor_addr (sampleEnv { harborAddr := "harbor.example.com" })).1
      "/mutate-v1-pod" _ (by decide)).1⟩

/-! ## Results about the rewrite core, as the specification describes it -/

theorem splitFirst_eq_none (c : Char) (l : List Char) (h : c ∉ l) : splitFirst c l = none := by
  induction l with
  | nil => rfl
  | cons x xs ih =>
    have hx : x ≠ c := fun hxc => h (by simp [hxc])
    have hxs : c ∉ xs := fun hm => h (List.mem_cons_of_mem _ hm)
    simp [splitFirst, hx, ih hxs]

theorem not_mem_of_splitFirst_eq_none (c : Char) (l : List Char) (h : splitFirst c l = none) :
    c ∉ l := by
  induction l with
  | nil => simp
  | cons x xs ih =>
    by_cases hx : x = c
    · simp [splitFirst, hx] at h
    · simp only [splitFirst, hx, if_false] at h
      rcases hxs : splitFirst c xs with _ | ⟨p, q⟩
      · have := ih hxs
        simp [this, Ne.symm hx]
      · simp [hxs] at h

theorem splitFirst_append_cons (c : Char) (a b : List Char) (h : c ∉ a) :
    splitFirst c (a ++ c :: b) = some (a, b) := by
  induction a with
  | nil => simp [splitFirst]
  | cons x xs ih =>
    have hx : x ≠ c := fun hxc => h (by simp [hxc])
    have hxs : c ∉ xs := fun hm => h (List.mem_cons_of_mem _ hm)
    simp [splitFirst, hx, ih hxs]

theorem splitFirst_append_of_some (c : Char) (a b p q : List Char)
    (h : splitFirst c a = some (p, q)) : splitFirst c (a ++ b) = some (p, q ++ b) := by
  induction a generalizing p with
  | nil => simp [splitFirst] at h
  | cons x xs ih =>
    by_cases hx : x = c
    · simp [splitFirst, hx] at h ⊢
      obtain ⟨rfl, rfl⟩ := h
      exact ⟨rfl, rfl⟩
    · simp only [splitFirst, hx, if_false, List.cons_append] at h ⊢
      rcases hxs : splitFirst c xs with _ | ⟨p2, q2⟩
      · simp [hxs] at h
      · simp only [hxs, Option.some.injEq, Prod.mk.injEq] at h
        obtain ⟨rfl, rfl⟩ := h
        simp [ih p2 hxs]

/-- The host split of `parseImage` leaves an unqualified name, followed by
anything free of `/`, in one piece. -/
theorem splitHost_unqualified (name : String) (tail : List Char) (hn : UnqualifiedName name)
    (ht : '/' ∉ tail) : splitHost (name.data ++ tail) = (none, name.data ++ tail) := by
  have hhost := hn.2.2.2
  rcases hs : splitFirst '/' name.data with _ | ⟨comp, rest⟩
  · have hnot : '/' ∉ name.data ++ tail := by
      simp [not_mem_of_splitFirst_eq_none _ _ hs, ht]
    simp [splitHost, splitFirst_eq_none _ _ hnot]
  · have hcomp : looksLikeHost comp = false := by
      cases hl : looksLikeHost comp
      · rfl
      · simp [splitHost, hs, hl] at hhost
    simp [splitHost, splitFirst_append_of_some _ _ _ _ _ hs, hcomp]

/-- An unqualified name followed by `:` and a tag parses into exactly that
name and that tag, without host. -/
theorem parseImage_name_tag (name tag : String) (hn : UnqualifiedName name)
    (ht : PlainTag tag) :
    parseImage (name ++ ":" ++ tag) =
      some { registryHost := none, repositoryPath := name, tagOrDigest := .tag tag } := by
  have hdata : (name ++ ":" ++ tag).data = name.data ++ (':' :: tag.data) := by
    simp [String.data_append]
  have hat : '@' ∉ name.data ++ (':' :: tag.data) := by
    simp [hn.2.1, ht.2.2]
  have hslash : '/' ∉ (':' :: tag.data) := by
    simp [ht.2.1]
  have hhost := splitHost_unqualified name (':' :: tag.data) hn hslash
  have hcolon := splitFirst_append_cons ':' name.data tag.data hn.2.2.1
  simp only [parseImage, hdata, splitFirst_eq_none _ _ hat, hhost, hcolon]
  simp [hn.1, ht.1]

/-- An unqualified name followed by `@` and a digest parses into exactly that
name and that digest, without host. -/
theorem parseImage_name_digest (name digest : String) (hn : UnqualifiedName name)
    (hd : digest.data ≠ []) :
    parseImage (name ++ "@" ++ digest) =
      some { registryHost := none, repositoryPath := name, tagOrDigest := .digest digest } := by
  have hdata : (name ++ "@" ++ digest).data = name.data ++ ('@' :: digest.data) := by
    simp [String.data_append]
  have hat := splitFirst_append_cons '@' name.data digest.data hn.2.1
  have hhost := splitHost_unqualified name [] hn (by simp)
  simp only [List.append_nil] at hhost
  have hcolon := splitFirst_eq_none ':' name.data hn.2.2.1
  simp only [parseImage, hdata, hat, hhost, hcolon]
  simp [hn.1, hd]

theorem splitFirst_append_left (c : Char) (a l : List Char) (h : c ∉ a) :
    splitFirst c (a ++ l) = (splitFirst c l).map (fun pq => (a ++ pq.1, pq.2)) := by
  induction a with
  | nil =>
    simp only [List.nil_append]
    cases splitFirst c l <;> simp
  | cons x xs ih =>
    have hx : x ≠ c := fun hxc => h (by simp [hxc])
    have hxs : c ∉ xs := fun hm => h (List.mem_cons_of_mem _ hm)
    rw [List.cons_append, splitFirst, if_neg hx, ih hxs]
    cases splitFirst c l <;> simp

theorem splitHost_hostLike (endpoint : String) (tail : List Char) (hH : HostLike endpoint) :
    splitHost (endpoint.data ++ '/' :: tail) = (some endpoint.data, tail) := by
  simp [splitHost, splitFirst_append_cons '/' endpoint.data tail hH.1, hH.2.2]

/-- A string that starts with a host-like endpoint and a slash parses, if it
parses at all, into a reference whose host is that endpoint. -/
theorem parseImage_host (endpoint : String) (tail : List Char) (raw : String)
    (r : ImageReference) (hH : HostLike endpoint) (hraw : raw.data = endpoint.data ++ '/' :: tail)
    (hp : parseImage raw = some r) : r.registryHost = some endpoint := by
  have hat : '@' ∉ endpoint.data ++ ['/'] := by simp [hH.2.1]
  have hsplit : splitFirst '@' raw.data =
      (splitFirst '@' tail).map (fun pq => ((endpoint.data ++ ['/']) ++ pq.1, pq.2)) := by
    rw [hraw]
    have := splitFirst_append_left '@' (endpoint.data ++ ['/']) tail hat
    simpa using this
  unfold parseImage at hp
  rw [hsplit] at hp
  rcases hs : splitFirst '@' tail with _ | ⟨t1, t2⟩
  · simp only [hs, Option.map_none', hraw, splitHost_hostLike endpoint tail hH] at hp
    rcases hc : splitFirst ':' tail with _ | ⟨p, t⟩ <;> simp only [hc] at hp <;>
      split_ifs at hp <;> simp at hp
    all_goals rw [← hp]
  · simp only [hs, Option.map_some', List.append_assoc, List.singleton_append,
      splitHost_hostLike endpoint t1 hH] at hp
    rcases hc : splitFirst ':' t1 with _ | ⟨p, t⟩
    · simp only [hc] at hp
      split_ifs at hp
      simp at hp
      rw [← hp]
    · simp [hc] at hp

/-- A plan that rewrites puts the proxy endpoint in the host position. -/
theorem plan_rewrite_host (policy : RegistryPolicy) (snapshot : CacheSnapshot)
    (harborEndpoint : String) (r r2 : ImageReference)
    (h : plan policy snapshot harborEndpoint r = .rewrite r2) :
    r2.registryHost = some harborEndpoint := by
  unfold plan at h
  split_ifs at h
  rcases hl : lookup snapshot (effectiveHost policy r) with _ | project
  · simp [hl] at h
  · simp only [hl, RewritePlan.rewrite.injEq] at h
    rw [← h]

theorem planImage_rewrite_host (policy : RegistryPolicy) (snapshot : CacheSnapshot)
    (harborEndpoint raw : String) (r2 : ImageReference)
    (h : planImage policy snapshot harborEndpoint raw = .rewrite r2) :
    r2.registryHost = some harborEndpoint := by
  unfold planImage at h
  rcases hp : parseImage raw with _ | r
  · simp [hp] at h
  · simp only [hp] at h
    exact plan_rewrite_host policy snapshot harborEndpoint r r2 h

/-- An image that starts with a host-like endpoint and a slash is left alone
(step 4 of section 4.2, on image strings). -/
theorem planImage_of_endpoint_host (policy : RegistryPolicy) (snapshot : CacheSnapshot)
    (harborEndpoint raw : String) (tail : List Char) (hH : HostLike harborEndpoint)
    (hraw : raw.data = harborEndpoint.data ++ '/' :: tail) :
    planImage policy snapshot harborEndpoint raw = .noChange := by
  unfold planImage
  rcases hp : parseImage raw with _ | r
  · rfl
  · have hhost := parseImage_host harborEndpoint tail raw r hH hraw hp
    simp [plan, hhost]

/-- With a host-like endpoint a second rewrite changes nothing. -/
theorem rewriteImage_fixed (policy : RegistryPolicy) (snapshot : CacheSnapshot)
    (harborEndpoint raw : String) (hH : HostLike harborEndpoint) :
    rewriteImage policy snapshot harborEndpoint
        (rewriteImage policy snapshot harborEndpoint raw) =
      rewriteImage policy snapshot harborEndpoint raw := by
  rcases hplan : planImage policy snapshot harborEndpoint raw with _ | r2
  · have hr : rewriteImage policy snapshot harborEndpoint raw = raw := by
      simp [rewriteImage, hplan]
    rw [hr, hr]
  · have hr : rewriteImage policy snapshot harborEndpoint raw = r2.render := by
      simp [rewriteImage, hplan]
    have hhost := planImage_rewrite_host policy snapshot harborEndpoint raw r2 hplan
    have hdata : r2.render.data = harborEndpoint.data ++
        '/' :: (r2.repositoryPath.data ++ r2.tagOrDigest.render.data) := by
      simp [ImageReference.render, hhost, String.data_append]
    have hnc := planImage_of_endpoint_host policy snapshot harborEndpoint r2.render _ hH hdata
    rw [hr]
    simp [rewriteImage, hnc]

/-- C5 fails: started with `--harbor-addr=harbor`, `main` registers a handler
with that endpoint. The rewrite of `busybox:1.2` is
`harbor/proxy/dockerhub/library/busybox:1.2`, whose first component does not
read as a host, so the rewrite of the result puts the project path in front
once more, and `Handle` patches a pod that already carries the rewritten
image. -/
theorem rewrite_twice_differs_for_plain_endpoint :
    Event.register "/mutate-v1-pod"
        (mainHandler (sampleEnv { harborAddr := "harbor" }) 60000000000 60000000000
          { config := { host := "https://10.96.0.1:443" },
            options := managerOptions { harborAddr := "harbor" } }) ∈
        (main (sampleEnv { harborAddr := "harbor" })).trace ∧
      (mainHandler (sampleEnv { harborAddr := "harbor" }) 60000000000 60000000000
          { config := { host := "https://10.96.0.1:443" },
            options := managerOptions { harborAddr := "harbor" } }).harborEndpoint = "harbor" ∧
      rewriteImage dockerPolicy [⟨"docker.io", "proxy/dockerhub"⟩] "harbor" "busybox:1.2" =
        "harbor/proxy/dockerhub/library/busybox:1.2" ∧
      rewriteImage dockerPolicy [⟨"docker.io", "proxy/dockerhub"⟩] "harbor"
          (rewriteImage dockerPolicy [⟨"docker.io", "proxy/dockerhub"⟩] "harbor" "busybox:1.2") =
        "harbor/proxy/dockerhub/harbor/proxy/dockerhub/library/busybox:1.2" ∧
      rewriteImage dockerPolicy [⟨"docker.io", "proxy/dockerhub"⟩] "harbor"
          (rewriteImage dockerPolicy [⟨"docker.io", "proxy/dockerhub"⟩] "harbor" "busybox:1.2") ≠
        rewriteImage dockerPolicy [⟨"docker.io", "proxy/dockerhub"⟩] "harbor" "busybox:1.2" ∧
      (mainHandler (sampleEnv { harborAddr := "harbor" }) 60000000000 60000000000
          { config := { host := "https://10.96.0.1:443" },
            options := managerOptions { harborAddr := "harbor" } }).Handle dockerPolicy
          ⟨some [⟨"docker.io", "proxy/dockerhub"⟩]⟩
          ⟨[], [⟨"app", "harbor/proxy/dockerhub/library/busybox:1.2"⟩]⟩ =
        .allow (some [⟨.container, 0,
          "harbor/proxy/dockerhub/harbor/proxy/dockerhub/library/busybox:1.2"⟩]) := by
  refine ⟨by decide, rfl, by decide, by decide, by decide, by decide⟩

/-- C5, amended: the handler that `main` registers has `HarborEndpoint` equal
to the value of `--harbor-addr`, and whenever that value reads as a registry
host, as the default `:8080` does, the rewrite of image strings is idempotent
with respect to it for every policy, snapshot and image: an image that starts
with the endpoint and a slash is left alone, and a rewritten image starts
so. -/
theorem rewriteImage_idempotent_of_hostLike (env : Env) :
    (∀ path handler, Event.register path handler ∈ (main env).trace →
        handler.harborEndpoint = env.flags.harborAddr) ∧
      (HostLike env.flags.harborAddr → ∀ policy snapshot raw,
        rewriteImage policy snapshot env.flags.harborAddr
            (rewriteImage policy snapshot env.flags.harborAddr raw) =
          rewriteImage policy snapshot env.flags.harborAddr raw) ∧
      (HostLike env.flags.harborAddr → ∀ policy snapshot raw tail,
        raw.data = env.flags.harborAddr.data ++ '/' :: tail →
          rewriteImage policy snapshot env.flags.harborAddr raw = raw) ∧
      HostLike ({} : Flags).harborAddr := by
  refine ⟨?_, fun hH policy snapshot raw => rewriteImage_fixed policy snapshot _ raw hH,
    ?_, by decide⟩
  · intro path handler h
    obtain ⟨r, t, mgr, _, _, _, hh, _, _⟩ := register_mem_main env path handler h
    rw [hh]
    rfl
  · intro hH policy snapshot raw tail hraw
    simp [rewriteImage, planImage_of_endpoint_host policy snapshot _ raw tail hH hraw]

/-- Instance of the amended C5: with `--harbor-addr=harbor.example.com` and
`docker.io` mapped, `busybox:1.2` is rewritten once and the result is left
alone. -/
theorem rewriteImage_idempotent_of_hostLike_witness :
    HostLike (sampleEnv { harborAddr := "harbor.example.com" }).flags.harborAddr ∧
      rewriteImage dockerPolicy [⟨"docker.io", "proxy/dockerhub"⟩] "harbor.example.com"
          "busybox:1.2" = "harbor.example.com/proxy/dockerhub/library/busybox:1.2" ∧
      rewriteImage dockerPolicy [⟨"docker.io", "proxy/dockerhub"⟩]
          (sampleEnv { harborAddr := "harbor.example.com" }).flags.harborAddr
          (rewriteImage dockerPolicy [⟨"docker.io", "proxy/dockerhub"⟩]
            (sampleEnv { harborAddr := "harbor.example.com" }).flags.harborAddr "busybox:1.2") =
        rewriteImage dockerPolicy [⟨"docker.io", "proxy/dockerhub"⟩]
          (sampleEnv { harborAddr := "harbor.example.com" }).flags.harborAddr "busybox:1.2" :=
  ⟨by decide, by decide,
    (rewriteImage_idempotent_of_hostLike (sampleEnv { harborAddr := "harbor.example.com" })).2.1
      (by decide) dockerPolicy [⟨"docker.io", "proxy/dockerhub"⟩] "busybox:1.2"⟩

/-- C6: for an unqualified image name, resolved to `docker.io` by the Docker
policy, a snapshot that maps `docker.io` to the project path `P` and a proxy
host `H`, the rewritten image is `H/P/` followed by the default-normalised
path and the original `:tag` or `@digest`; `busybox:1.2` becomes
`harbor.example.com/proxy/dockerhub/library/busybox:1.2`. -/
theorem unqualified_name_rewritten (snapshot : CacheSnapshot) (H P name : String)
    (hn : UnqualifiedName name) (hmap : MapsTo snapshot "docker.io" P) :
    (∀ tag, PlainTag tag →
        effectiveHost dockerPolicy ⟨none, name, .tag tag⟩ = "docker.io" ∧
        rewriteImage dockerPolicy snapshot H (name ++ ":" ++ tag) =
          H ++ "/" ++ P ++ "/" ++ dockerPolicy.defaultPath name ++ ":" ++ tag) ∧
      (∀ digest, digest.data ≠ [] →
        rewriteImage dockerPolicy snapshot H (name ++ "@" ++ digest) =
          H ++ "/" ++ P ++ "/" ++ dockerPolicy.defaultPath name ++ "@" ++ digest) ∧
      rewriteImage dockerPolicy [⟨"docker.io", "proxy/dockerhub"⟩] "harbor.example.com"
          "busybox:1.2" =
        "harbor.example.com/proxy/dockerhub/library/busybox:1.2" := by
  obtain ⟨project, hl, hp⟩ : ∃ project,
      lookup snapshot "docker.io" = some project ∧ project.projectPath = P := by
    simpa [MapsTo] using hmap
  have hl2 : lookup snapshot dockerPolicy.defaultHost = some project := hl
  refine ⟨?_, ?_, by decide⟩
  · intro tag ht
    refine ⟨rfl, ?_⟩
    simp only [rewriteImage, planImage, parseImage_name_tag name tag hn ht, plan, effectiveHost,
      effectivePath, hl2, ImageReference.render, TagOrDigest.render, hp]
    simp [String.append_assoc]
  · intro digest hd
    simp only [rewriteImage, planImage, parseImage_name_digest name digest hn hd, plan,
      effectiveHost, effectivePath, hl2, ImageReference.render, TagOrDigest.render, hp]
    simp [String.append_assoc]

/-- Instance of C6: `busybox` with the tag `1.2`. -/
theorem unqualified_name_rewritten_witness :
    UnqualifiedName "busybox" ∧
      MapsTo [⟨"docker.io", "proxy/dockerhub"⟩] "docker.io" "proxy/dockerhub" ∧
      PlainTag "1.2" ∧
      rewriteImage dockerPolicy [⟨"docker.io", "proxy/dockerhub"⟩] "harbor.example.com"
          ("busybox" ++ ":" ++ "1.2") =
        "harbor.example.com" ++ "/" ++ "proxy/dockerhub" ++ "/" ++
          dockerPolicy.defaultPath "busybox" ++ ":" ++ "1.2" :=
  ⟨by decide, by decide, by decide,
    ((unqualified_name_rewritten [⟨"docker.io", "proxy/dockerhub"⟩] "harbor.example.com"
      "proxy/dockerhub" "busybox" (by decide) (by decide)).1 "1.2" (by decide)).2⟩

/-- C7: `Handle` never denies. For every handler, policy, cache state and
decoded pod the decision is an allow, never a denial, and when the cache
reports that it has not yet been populated the decision is an allow without
patch. -/
theorem handle_never_denies (p : PodContainerProxier) (policy : RegistryPolicy)
    (cache : CacheState) (pod : Pod) :
    (∃ patch, p.Handle policy cache pod = .allow patch) ∧
      (∀ reason, p.Handle policy cache pod ≠ .deny reason) ∧
      ((cache.List).2 = some .notYetPopulated → p.Handle policy cache pod = .allow none) := by
  rcases hheld : cache.held with _ | snapshot
  · simp [PodContainerProxier.Handle, CacheState.List, hheld]
  · simp only [PodContainerProxier.Handle, CacheState.List, hheld]
    split <;> simp

/-- Instance of C7: a pod with a rewritable image, sent to a handler whose
cache is still cold, is admitted without patch. -/
theorem handle_never_denies_witness :
    ((⟨none⟩ : CacheState).List).2 = some .notYetPopulated ∧
      (mainHandler (sampleEnv {}) 60000000000 60000000000
          { config := { host := "https://10.96.0.1:443" }, options := managerOptions {} }).Handle
          dockerPolicy ⟨none⟩ ⟨[], [⟨"app", "busybox:1.2"⟩]⟩ = .allow none :=
  ⟨rfl,
    (handle_never_denies
      (mainHandler (sampleEnv {}) 60000000000 60000000000
        { config := { host := "https://10.96.0.1:443" }, options := managerOptions {} })
      dockerPolicy ⟨none⟩ ⟨[], [⟨"app", "busybox:1.2"⟩]⟩).2.2 rfl⟩

end HarborWebhook
